import Mathlib

/-!
Shallow embedding of `src/WebApp3.py` (a Streamlit front end that classifies
free-text competence self-assessments and logs results to a CSV history file).

Modelling conventions:
* The history CSV file is `HistFile := Option (List Record)`: `none` means the
  file does not exist on disk; `some rs` means the file exists with its fixed
  header row followed by the records `rs` in storage order.
* The vectorizer and classifier are opaque external objects; their `transform`
  and `predict` calls may raise, which is modelled with `Except String`.
* Filesystem and network effects (file existence, gdown fetch, to_csv raising)
  are abstracted into explicit boolean / `Option String` parameters; each
  parameter is documented at its definition.
* Streamlit banners (st.info / st.warning / st.error / st.success) are
  modelled by a `Severity` tag paired with the message text.
-/

/-- Python `str.strip()` as used in `comment.strip()` (WebApp3.py line 283):
drop whitespace characters from both ends of the string. -/
def pyStrip (s : String) : String :=
  String.mk (((s.data.dropWhile Char.isWhitespace).reverse.dropWhile Char.isWhitespace).reverse)

/-- One row of the history CSV (WebApp3.py lines 103 and 296-300): the fixed
schema is Date, Time, Response, Classification, all stored as text. -/
structure Record where
  date : String
  time : String
  response : String
  classification : String
deriving DecidableEq, Repr

/-- The history CSV file state: `none` = missing, `some rs` = exists with the
fixed header and records `rs` in storage order. -/
abbrev HistFile := Option (List Record)

/-- App initialization (WebApp3.py lines 100-106): if HISTORY_FILE does not
exist, create it containing only the header row (zero records); an existing
file is left untouched. This block runs at the top of every script run, in
particular on the rerun triggered right after Delete History. -/
def initHistory (f : HistFile) : HistFile :=
  match f with
  | none => some []
  | some rs => some rs

/-- `to_csv(HISTORY_FILE, mode="a", header=False)` (WebApp3.py line 301):
append exactly one row at the end of the file, leaving existing rows
untouched; pandas creates the file if it is missing. -/
def appendRecord (f : HistFile) (r : Record) : HistFile :=
  match f with
  | none => some [r]
  | some rs => some (rs ++ [r])

/-- The Delete History action (WebApp3.py lines 391-395): `os.remove` on the
history file, leaving it missing (the handler only fires when the file
exists; when it is already missing the file state is unchanged, i.e. still
`none`). -/
def clearHistory (_ : HistFile) : HistFile := none

/-- `pd.read_csv(HISTORY_FILE)` (WebApp3.py lines 340 and 368): reading the
file returns its records in storage order; `none` models the missing-file
state (callers guard the read with `os.path.exists`). -/
def readAll (f : HistFile) : Option (List Record) := f

/-- The numeric feature representation produced by the vectorizer; its
internals are opaque to the app, so any carrier works. -/
abbrev Features := List Int

/-- The deserialized vectorizer object: `transform` (WebApp3.py line 289) maps
the raw text to features and may raise, modelled with `Except String`. -/
structure Vectorizer where
  transform : String → Except String Features

/-- The deserialized classifier object: `predict(...)[0]` (WebApp3.py line
290) maps features to one integer class code for the single input and may
raise, modelled with `Except String`. -/
structure Model where
  predict : Features → Except String Int

/-- The label dictionary lookup
`{0: "Weak Competence", 1: "Normal Competence", 2: "Strong Competence"}.get(prediction, "Unknown")`
(WebApp3.py lines 292-293). -/
def sentiment_labels (code : Int) : String :=
  if code = 0 then "Weak Competence"
  else if code = 1 then "Normal Competence"
  else if code = 2 then "Strong Competence"
  else "Unknown"

/-- The session and storage state the Analyze handler touches:
`result` is `st.session_state.result` (`none` when the key is absent), and
`history` is the history CSV file. -/
structure HomeState where
  result : Option String
  history : HistFile
deriving DecidableEq, Repr

/-- The Analyze button handler (WebApp3.py lines 282-303).
`writeErr` models whether the `to_csv` append raises (`some e`) or succeeds
(`none`); `nowDate` and `nowTime` are the strftime renderings of
`datetime.now()`. Returns the new state together with the optional `st.error`
banner text emitted by the `except` clause. -/
def analyze (comment : String) (model : Option Model) (vectorizer : Option Vectorizer)
    (writeErr : Option String) (nowDate nowTime : String) (st : HomeState) :
    HomeState × Option String :=
  if pyStrip comment = "" then
    ({ st with result := some "Please enter some text first." }, none)
  else
    match model, vectorizer with
    | some m, some v =>
      match v.transform comment with
      | Except.error e => (st, some ("Error during prediction: " ++ e))
      | Except.ok feats =>
        match m.predict feats with
        | Except.error e => (st, some ("Error during prediction: " ++ e))
        | Except.ok pred =>
          let label := sentiment_labels pred
          let st1 : HomeState := { st with result := some label }
          match writeErr with
          | some e => (st1, some ("Error during prediction: " ++ e))
          | none =>
            ({ st1 with history := appendRecord st1.history ⟨nowDate, nowTime, comment, label⟩ },
              none)
    | _, _ => ({ st with result := some "Model is not loaded. Cannot perform analysis." }, none)

/-- Severity of a Streamlit banner. -/
inductive Severity where
  | info
  | warning
  | error
  | success
deriving DecidableEq, Repr

/-- Python substring membership `pat in s` (WebApp3.py line 309). -/
def containsSub (s pat : String) : Bool := decide (pat.data <:+: s.data)

/-- The result display column (WebApp3.py lines 305-312): nothing is rendered
while `result` is absent from session state; the empty-input message renders
as a warning, any text containing "Model is not loaded" as an error, and
everything else as a success banner. -/
def renderResult (result : Option String) : Option (Severity × String) :=
  match result with
  | none => none
  | some r =>
    if r = "Please enter some text first." then some (Severity.warning, r)
    else if containsSub r "Model is not loaded" then some (Severity.error, r)
    else some (Severity.success, "Result: **" ++ r ++ "**")

/-- `download_if_missing` (WebApp3.py lines 50-68): returns True immediately
when the local file already exists; otherwise attempts a gdown fetch and
returns whether the file exists afterwards, catching every failure and
returning False. The filesystem and network are abstracted into the two
flags. -/
def download_if_missing (existsAlready fetchSucceeds : Bool) : Bool :=
  existsAlready || fetchSucceeds

/-- `load_model_and_vectorizer` (WebApp3.py lines 71-94), the body under the
`st.cache_resource` decorator. `vecExists`/`vecFetch` and
`modelExists`/`modelFetch` feed the two `download_if_missing` calls;
`loadModel` and `loadVectorizer` model the two `joblib.load` calls, each of
which may raise (its `except` clause leaves `None` for that object). Returns
the `(model, vectorizer)` pair. -/
def load_model_and_vectorizer (vecExists vecFetch modelExists modelFetch : Bool)
    (loadModel : Except String Model) (loadVectorizer : Except String Vectorizer) :
    Option Model × Option Vectorizer :=
  let ok_vec := download_if_missing vecExists vecFetch
  let ok_model := download_if_missing modelExists modelFetch
  if !ok_vec || !ok_model then (none, none)
  else (loadModel.toOption, loadVectorizer.toOption)

/-- A page body rendered from the history file: a summary chart over label
counts, the history table, or a single banner. -/
inductive PageView where
  | chart (counts : List (String × Nat))
  | table (rs : List Record)
  | msg (sev : Severity) (text : String)
deriving DecidableEq, Repr

/-- Number of records carrying the given classification label
(`value_counts` restricted to one label, WebApp3.py line 342). -/
def countLabel (rs : List Record) (label : String) : Nat :=
  (rs.filter (fun r => r.classification == label)).length

/-- The Summary page aggregation (WebApp3.py lines 342-349): counts per label,
zero-filled for absent labels, in the fixed display order Strong, Normal,
Weak. -/
def summaryCounts (rs : List Record) : List (String × Nat) :=
  ["Strong Competence", "Normal Competence", "Weak Competence"].map
    (fun l => (l, countLabel rs l))

/-- The Summary page read path (WebApp3.py lines 339-362): missing file is an
`st.error`; an existing file with zero records is an `st.info`; otherwise the
aggregated chart is rendered. -/
def summaryRead (f : HistFile) : PageView :=
  match f with
  | none => PageView.msg Severity.error "Error: History file not found."
  | some rs =>
    if rs.isEmpty then
      PageView.msg Severity.info "No responses recorded yet. Submit a response on the Home page."
    else PageView.chart (summaryCounts rs)

/-- The sort key `pd.to_datetime(Date + " " + Time)` (WebApp3.py line 370);
for the strftime formats this app writes ("%Y-%m-%d" and "%H:%M:%S"),
chronological order coincides with lexicographic order on this string. -/
def datetimeKey (r : Record) : String := r.date ++ " " ++ r.time

/-- Insert a record into a list that is already ordered by the comparator. -/
def insertOrd (le : Record → Record → Bool) (r : Record) : List Record → List Record
  | [] => [r]
  | s :: rest => if le r s then r :: s :: rest else s :: insertOrd le r rest

/-- Comparison sort parameterized by a boolean comparator; models
`sort_values` (WebApp3.py line 371), whose tie order pandas does not fix. -/
def sortOrd (le : Record → Record → Bool) : List Record → List Record
  | [] => []
  | r :: rest => insertOrd le r (sortOrd le rest)

/-- The History page read path (WebApp3.py lines 365-387): missing file is an
`st.info`; an existing file with zero records is a different `st.info`;
otherwise the table is rendered sorted by DateTime descending. -/
def historyRead (f : HistFile) : PageView :=
  match f with
  | none => PageView.msg Severity.info "History file not found."
  | some rs =>
    if rs.isEmpty then PageView.msg Severity.info "No sentiment history available."
    else PageView.table (sortOrd (fun a b => decide (datetimeKey b ≤ datetimeKey a)) rs)

/-- The `(model, vectorizer)` pair as returned by the loader. -/
abbrev ModelPair := Option Model × Option Vectorizer

/-- Modelled from the spec: the `st.cache_resource` decorator applied at
WebApp3.py line 71 is Streamlit library code, not part of this repository;
per the spec it memoizes the decorated loader for the process lifetime
(computed at most once, later calls return the cached result without
re-running the body). The cache cell is threaded explicitly and the `Nat`
counts how many times the underlying body ran during the call. -/
def cache_resource_call (cache : Option ModelPair) (run : Unit → ModelPair) :
    ModelPair × Option ModelPair × Nat :=
  match cache with
  | some p => (p, some p, 0)
  | none => (run (), some (run ()), 1)

/-- Two successive invocations of the cached loader starting from an empty
cache: returns both results and the total number of underlying body runs. -/
def call_twice (run : Unit → ModelPair) : ModelPair × ModelPair × Nat :=
  match cache_resource_call none run with
  | (p1, c1, n1) =>
    match cache_resource_call c1 run with
    | (p2, _, n2) => (p1, p2, n1 + n2)

/-- Sample vectorizer whose `transform` always succeeds. -/
def okVectorizer : Vectorizer := ⟨fun _ => Except.ok [1]⟩

/-- Sample classifier that always predicts the given class code. -/
def constModel (c : Int) : Model := ⟨fun _ => Except.ok c⟩

/-- Sample vectorizer whose `transform` always raises. -/
def failVectorizer : Vectorizer := ⟨fun _ => Except.error "vectorize failed"⟩

/-! ## Auxiliary lemmas about the Analyze handler -/

lemma analyze_unavailable_aux (comment : String) (h : ¬ pyStrip comment = "")
    (model : Option Model) (vectorizer : Option Vectorizer)
    (hmv : model = none ∨ vectorizer = none)
    (writeErr : Option String) (nowDate nowTime : String) (st : HomeState) :
    analyze comment model vectorizer writeErr nowDate nowTime st =
      ({ st with result := some "Model is not loaded. Cannot perform analysis." }, none) := by
  unfold analyze
  rw [if_neg h]
  rcases hmv with rfl | rfl
  · cases vectorizer <;> rfl
  · cases model <;> rfl

lemma analyze_transform_error_aux (comment : String) (h : ¬ pyStrip comment = "")
    (m : Model) (v : Vectorizer) (writeErr : Option String)
    (nowDate nowTime : String) (st : HomeState) (e : String)
    (he : v.transform comment = Except.error e) :
    analyze comment (some m) (some v) writeErr nowDate nowTime st =
      (st, some ("Error during prediction: " ++ e)) := by
  unfold analyze
  rw [if_neg h]
  dsimp only
  rw [he]

lemma analyze_predict_error_aux (comment : String) (h : ¬ pyStrip comment = "")
    (m : Model) (v : Vectorizer) (writeErr : Option String)
    (nowDate nowTime : String) (st : HomeState) (φ : Features) (e : String)
    (hφ : v.transform comment = Except.ok φ) (he : m.predict φ = Except.error e) :
    analyze comment (some m) (some v) writeErr nowDate nowTime st =
      (st, some ("Error during prediction: " ++ e)) := by
  unfold analyze
  rw [if_neg h]
  dsimp only
  rw [hφ]
  dsimp only
  rw [he]

lemma analyze_write_error_aux (comment : String) (h : ¬ pyStrip comment = "")
    (m : Model) (v : Vectorizer) (nowDate nowTime : String) (st : HomeState)
    (φ : Features) (c : Int) (e : String)
    (hφ : v.transform comment = Except.ok φ) (hc : m.predict φ = Except.ok c) :
    analyze comment (some m) (some v) (some e) nowDate nowTime st =
      ({ st with result := some (sentiment_labels c) },
        some ("Error during prediction: " ++ e)) := by
  unfold analyze
  rw [if_neg h]
  dsimp only
  rw [hφ]
  dsimp only
  rw [hc]

lemma analyze_success_aux (comment : String) (h : ¬ pyStrip comment = "")
    (m : Model) (v : Vectorizer) (nowDate nowTime : String) (st : HomeState)
    (φ : Features) (c : Int)
    (hφ : v.transform comment = Except.ok φ) (hc : m.predict φ = Except.ok c) :
    analyze comment (some m) (some v) none nowDate nowTime st =
      ({ result := some (sentiment_labels c),
         history := appendRecord st.history ⟨nowDate, nowTime, comment, sentiment_labels c⟩ },
        none) := by
  unfold analyze
  rw [if_neg h]
  dsimp only
  rw [hφ]
  dsimp only
  rw [hc]

lemma appendAll_some (acc rs : List Record) :
    rs.foldl appendRecord (some acc) = some (acc ++ rs) := by
  induction rs generalizing acc with
  | nil => simp
  | cons r rest ih =>
    simp only [List.foldl_cons, appendRecord]
    rw [ih]
    simp

/-! ## Claims -/

/-- C3: the label mapping is a pure total lookup: 0, 1, 2 map to the three
competence labels and every other code maps to the "Unknown" sentinel. -/
theorem sentiment_labels_total_lookup :
    sentiment_labels 0 = "Weak Competence" ∧
    sentiment_labels 1 = "Normal Competence" ∧
    sentiment_labels 2 = "Strong Competence" ∧
    ∀ c : Int, c ≠ 0 → c ≠ 1 → c ≠ 2 → sentiment_labels c = "Unknown" := by
  refine ⟨rfl, rfl, rfl, ?_⟩
  intro c h0 h1 h2
  unfold sentiment_labels
  rw [if_neg h0, if_neg h1, if_neg h2]

/-- Witness for C3 at the concrete code 5. -/
theorem sentiment_labels_total_lookup_witness :
    sentiment_labels 5 = "Unknown" :=
  sentiment_labels_total_lookup.2.2.2 5 (by decide) (by decide) (by decide)

/-- C4: starting from the initialized header-only history file, appending N
records and reading back returns exactly those records in append order, and
each single append adds exactly one record at the end without rewriting or
reordering the existing ones. -/
theorem append_readAll_roundtrip (rs : List Record) :
    readAll (rs.foldl appendRecord (initHistory none)) = some rs ∧
    ∀ (cur : List Record) (r : Record), appendRecord (some cur) r = some (cur ++ [r]) := by
  constructor
  · show rs.foldl appendRecord (some []) = some rs
    rw [appendAll_some]
    simp
  · intro cur r
    rfl

/-- C5: Delete History removes the file, the rerun re-initializes it to the
header-only state, so reading back yields zero records, and a subsequent
append leaves exactly one record. -/
theorem clear_readAll_append (f : HistFile) (r : Record) :
    readAll (initHistory (clearHistory f)) = some [] ∧
    appendRecord (initHistory (clearHistory f)) r = some [r] :=
  ⟨rfl, rfl⟩

/-- C1: an input that is empty or whitespace-only after trimming yields the
specific EmptyInput message, and the handler output does not depend on the
model pair (the inference pipeline is not consulted) and leaves the history
file unchanged (no record appended). -/
theorem analyze_empty_input (comment : String) (h : pyStrip comment = "")
    (model : Option Model) (vectorizer : Option Vectorizer)
    (writeErr : Option String) (nowDate nowTime : String) (st : HomeState) :
    analyze comment model vectorizer writeErr nowDate nowTime st =
      ({ st with result := some "Please enter some text first." }, none) ∧
    (analyze comment model vectorizer writeErr nowDate nowTime st).1.history = st.history ∧
    ∀ (model2 : Option Model) (vectorizer2 : Option Vectorizer),
      analyze comment model2 vectorizer2 writeErr nowDate nowTime st =
        analyze comment model vectorizer writeErr nowDate nowTime st := by
  have key : ∀ (mo : Option Model) (vo : Option Vectorizer),
      analyze comment mo vo writeErr nowDate nowTime st =
        ({ st with result := some "Please enter some text first." }, none) := by
    intro mo vo
    unfold analyze
    rw [if_pos h]
  refine ⟨key model vectorizer, ?_, ?_⟩
  · rw [key model vectorizer]
  · intro model2 vectorizer2
    rw [key model2 vectorizer2, key model vectorizer]

/-- Witness for C1 on the concrete whitespace input "   ". -/
theorem analyze_empty_input_witness :
    analyze "   " none none none "2026-01-01" "12:00:00" ⟨none, some []⟩ =
      (⟨some "Please enter some text first.", some []⟩, none) :=
  (analyze_empty_input "   " (by decide) none none none "2026-01-01" "12:00:00"
    ⟨none, some []⟩).1

/-- C2: a non-empty input with an unusable model pair (model or vectorizer
null) yields the ArtifactUnavailable message and leaves the history file
unchanged (no record appended). -/
theorem analyze_model_unavailable (comment : String) (h : pyStrip comment ≠ "")
    (model : Option Model) (vectorizer : Option Vectorizer)
    (hmv : model = none ∨ vectorizer = none)
    (writeErr : Option String) (nowDate nowTime : String) (st : HomeState) :
    analyze comment model vectorizer writeErr nowDate nowTime st =
      ({ st with result := some "Model is not loaded. Cannot perform analysis." }, none) ∧
    (analyze comment model vectorizer writeErr nowDate nowTime st).1.history = st.history := by
  have key := analyze_unavailable_aux comment h model vectorizer hmv writeErr nowDate nowTime st
  exact ⟨key, by rw [key]⟩

/-- Witness for C2 on the concrete input "abc" with a null model. -/
theorem analyze_model_unavailable_witness :
    analyze "abc" none (some okVectorizer) none "2026-01-01" "12:00:00" ⟨none, some []⟩ =
      (⟨some "Model is not loaded. Cannot perform analysis.", some []⟩, none) :=
  (analyze_model_unavailable "abc" (by decide) none (some okVectorizer) (Or.inl rfl)
    none "2026-01-01" "12:00:00" ⟨none, some []⟩).1

/-- C6: when vectorization raises, prediction raises, or the history write
raises, the Analyze handler returns normally with an Error-during-prediction
banner (the exception is caught at the boundary and surfaced), and the
history file is unchanged (no partial append). -/
theorem analyze_exception_caught (comment : String) (h : pyStrip comment ≠ "")
    (m : Model) (v : Vectorizer) (writeErr : Option String)
    (nowDate nowTime : String) (st : HomeState)
    (hfail : (∃ e, v.transform comment = Except.error e) ∨
      (∃ φ e, v.transform comment = Except.ok φ ∧ m.predict φ = Except.error e) ∨
      (∃ φ c e, v.transform comment = Except.ok φ ∧ m.predict φ = Except.ok c ∧
        writeErr = some e)) :
    (analyze comment (some m) (some v) writeErr nowDate nowTime st).1.history = st.history ∧
    ∃ e, (analyze comment (some m) (some v) writeErr nowDate nowTime st).2 =
      some ("Error during prediction: " ++ e) := by
  rcases hfail with ⟨e, he⟩ | ⟨φ, e, hφ, he⟩ | ⟨φ, c, e, hφ, hc, hw⟩
  · rw [analyze_transform_error_aux comment h m v writeErr nowDate nowTime st e he]
    exact ⟨rfl, e, rfl⟩
  · rw [analyze_predict_error_aux comment h m v writeErr nowDate nowTime st φ e hφ he]
    exact ⟨rfl, e, rfl⟩
  · rw [hw, analyze_write_error_aux comment h m v nowDate nowTime st φ c e hφ hc]
    exact ⟨rfl, e, rfl⟩

/-- Witness for C6 on the concrete input "abc" with a vectorizer that
raises. -/
theorem analyze_exception_caught_witness :
    (analyze "abc" (some (constModel 2)) (some failVectorizer) none "2026-01-01" "12:00:00"
      ⟨none, some []⟩).1.history = (⟨none, some []⟩ : HomeState).history ∧
    ∃ e, (analyze "abc" (some (constModel 2)) (some failVectorizer) none "2026-01-01" "12:00:00"
      ⟨none, some []⟩).2 = some ("Error during prediction: " ++ e) :=
  analyze_exception_caught "abc" (by decide) (constModel 2) failVectorizer none
    "2026-01-01" "12:00:00" ⟨none, some []⟩ (Or.inl ⟨"vectorize failed", rfl⟩)

/-- C7 counterexample: with both downloads succeeding, a failing model
deserialization and a succeeding vectorizer deserialization make
`load_model_and_vectorizer` return a partial pair (model null, vectorizer
non-null), refuting the claim that a partial pair is never returned. -/
theorem load_partial_pair_counterexample :
    (load_model_and_vectorizer true true true true (Except.error "corrupt model file")
      (Except.ok okVectorizer)).1 = none ∧
    (load_model_and_vectorizer true true true true (Except.error "corrupt model file")
      (Except.ok okVectorizer)).2 = some okVectorizer :=
  ⟨rfl, rfl⟩

/-- C7 amended: if either provisioning (download) step fails the loader
returns (null, null); if both succeed, each element of the returned pair is
null exactly when its own deserialization raised (so a partial pair can
occur); and inference proceeds only when both elements are non-null: with
either element null the Analyze handler refuses with the model-unavailable
message and leaves the history unchanged. -/
theorem load_all_or_nothing_amended (vecExists vecFetch modelExists modelFetch : Bool)
    (lm : Except String Model) (lv : Except String Vectorizer) :
    ((download_if_missing vecExists vecFetch = false ∨
      download_if_missing modelExists modelFetch = false) →
      load_model_and_vectorizer vecExists vecFetch modelExists modelFetch lm lv =
        (none, none)) ∧
    (download_if_missing vecExists vecFetch = true →
      download_if_missing modelExists modelFetch = true →
      load_model_and_vectorizer vecExists vecFetch modelExists modelFetch lm lv =
        (lm.toOption, lv.toOption)) ∧
    (∀ (comment : String) (writeErr : Option String) (nowDate nowTime : String)
      (st : HomeState), pyStrip comment ≠ "" →
      ((load_model_and_vectorizer vecExists vecFetch modelExists modelFetch lm lv).1 = none ∨
       (load_model_and_vectorizer vecExists vecFetch modelExists modelFetch lm lv).2 = none) →
      analyze comment
        (load_model_and_vectorizer vecExists vecFetch modelExists modelFetch lm lv).1
        (load_model_and_vectorizer vecExists vecFetch modelExists modelFetch lm lv).2
        writeErr nowDate nowTime st =
        ({ st with result := some "Model is not loaded. Cannot perform analysis." }, none)) := by
  refine ⟨?_, ?_, ?_⟩
  · rintro (hv | hm)
    · simp [load_model_and_vectorizer, hv]
    · simp [load_model_and_vectorizer, hm]
  · intro hv hm
    simp [load_model_and_vectorizer, hv, hm]
  · intro comment writeErr nowDate nowTime st h hmv
    exact analyze_unavailable_aux comment h _ _ hmv writeErr nowDate nowTime st

/-- Witness for the amended C7 with the vectorizer download failing. -/
theorem load_all_or_nothing_amended_witness :
    load_model_and_vectorizer false false true true (Except.ok (constModel 0))
      (Except.ok okVectorizer) = (none, none) :=
  (load_all_or_nothing_amended false false true true (Except.ok (constModel 0))
    (Except.ok okVectorizer)).1 (Or.inl rfl)

/-- C8 counterexample: on the History page a missing history file is reported
with an informational banner, not an error banner, refuting the claim that a
missing log is reported as an error on the cited read paths. -/
theorem history_missing_reported_info :
    historyRead none = PageView.msg Severity.info "History file not found." ∧
    Severity.info ≠ Severity.error :=
  ⟨rfl, by decide⟩

/-- C8 amended: both read paths distinguish an existing empty log from a
missing log by distinct messages; an empty log is informational on both
pages, while a missing log is reported as an error on the Summary page but
as an informational banner on the History page. -/
theorem read_degenerate_states_distinguished :
    summaryRead (some []) =
      PageView.msg Severity.info
        "No responses recorded yet. Submit a response on the Home page." ∧
    summaryRead none = PageView.msg Severity.error "Error: History file not found." ∧
    historyRead (some []) = PageView.msg Severity.info "No sentiment history available." ∧
    historyRead none = PageView.msg Severity.info "History file not found." ∧
    ("No sentiment history available." : String) ≠ "History file not found." :=
  ⟨rfl, rfl, rfl, rfl, by decide⟩

/-- C9: two successive invocations of the cached loader run the underlying
body exactly once, and both calls return the same loader result. -/
theorem model_loading_memoized (vecExists vecFetch modelExists modelFetch : Bool)
    (lm : Except String Model) (lv : Except String Vectorizer) :
    call_twice (fun _ =>
      load_model_and_vectorizer vecExists vecFetch modelExists modelFetch lm lv) =
      (load_model_and_vectorizer vecExists vecFetch modelExists modelFetch lm lv,
       load_model_and_vectorizer vecExists vecFetch modelExists modelFetch lm lv, 1) :=
  rfl

/-- C10 counterexample: when the history write raises, the stored result does
NOT keep its pre-run value: it already holds the freshly computed label set
before the failed write (here "Strong Competence" replaces the prior
"Weak Competence"), alongside the new error banner. -/
theorem stale_result_counterexample :
    (analyze "good at python" (some (constModel 2)) (some okVectorizer) (some "disk full")
      "2026-01-01" "12:00:00" ⟨some "Weak Competence", some []⟩).1.result =
      some "Strong Competence" ∧
    (some "Strong Competence" : Option String) ≠ some "Weak Competence" ∧
    (analyze "good at python" (some (constModel 2)) (some okVectorizer) (some "disk full")
      "2026-01-01" "12:00:00" ⟨some "Weak Competence", some []⟩).2 =
      some "Error during prediction: disk full" :=
  ⟨rfl, by decide, rfl⟩

/-- C10 amended: when vectorization or prediction raises, the whole session
state (in particular the stored result) keeps its pre-run value, so a stale
success label remains rendered as a success banner alongside the new error
banner; when only the history write raises, the stored result instead holds
the freshly computed label (set before the write). -/
theorem result_frame_on_failure (comment : String) (h : pyStrip comment ≠ "")
    (m : Model) (v : Vectorizer) (writeErr : Option String)
    (nowDate nowTime : String) (st : HomeState) :
    (((∃ e, v.transform comment = Except.error e) ∨
      (∃ φ e, v.transform comment = Except.ok φ ∧ m.predict φ = Except.error e)) →
      (analyze comment (some m) (some v) writeErr nowDate nowTime st).1 = st) ∧
    (∀ (φ : Features) (c : Int) (e : String), v.transform comment = Except.ok φ →
      m.predict φ = Except.ok c → writeErr = some e →
      (analyze comment (some m) (some v) writeErr nowDate nowTime st).1.result =
        some (sentiment_labels c)) ∧
    (∀ r : String, st.result = some r → r ≠ "Please enter some text first." →
      containsSub r "Model is not loaded" = false →
      ((∃ e, v.transform comment = Except.error e) ∨
       (∃ φ e, v.transform comment = Except.ok φ ∧ m.predict φ = Except.error e)) →
      renderResult (analyze comment (some m) (some v) writeErr nowDate nowTime st).1.result =
        some (Severity.success, "Result: **" ++ r ++ "**") ∧
      ∃ e, (analyze comment (some m) (some v) writeErr nowDate nowTime st).2 =
        some ("Error during prediction: " ++ e)) := by
  have frame : ((∃ e, v.transform comment = Except.error e) ∨
      (∃ φ e, v.transform comment = Except.ok φ ∧ m.predict φ = Except.error e)) →
      (analyze comment (some m) (some v) writeErr nowDate nowTime st).1 = st := by
    rintro (⟨e, he⟩ | ⟨φ, e, hφ, he⟩)
    · rw [analyze_transform_error_aux comment h m v writeErr nowDate nowTime st e he]
    · rw [analyze_predict_error_aux comment h m v writeErr nowDate nowTime st φ e hφ he]
  have banner : ((∃ e, v.transform comment = Except.error e) ∨
      (∃ φ e, v.transform comment = Except.ok φ ∧ m.predict φ = Except.error e)) →
      ∃ e, (analyze comment (some m) (some v) writeErr nowDate nowTime st).2 =
        some ("Error during prediction: " ++ e) := by
    rintro (⟨e, he⟩ | ⟨φ, e, hφ, he⟩)
    · exact ⟨e, by
        rw [analyze_transform_error_aux comment h m v writeErr nowDate nowTime st e he]⟩
    · exact ⟨e, by
        rw [analyze_predict_error_aux comment h m v writeErr nowDate nowTime st φ e hφ he]⟩
  refine ⟨frame, ?_, ?_⟩
  · intro φ c e hφ hc hw
    rw [hw, analyze_write_error_aux comment h m v nowDate nowTime st φ c e hφ hc]
  · intro r hr hne hsub hfail
    refine ⟨?_, banner hfail⟩
    rw [frame hfail, hr]
    unfold renderResult
    dsimp only
    rw [if_neg hne]
    simp [hsub]

/-- Witness for the amended C10 on a concrete failing vectorization: the
prior state survives untouched. -/
theorem result_frame_on_failure_witness :
    (analyze "abc" (some (constModel 2)) (some failVectorizer) none "2026-01-01" "12:00:00"
      ⟨some "Strong Competence", some []⟩).1 =
      (⟨some "Strong Competence", some []⟩ : HomeState) :=
  (result_frame_on_failure "abc" (by decide) (constModel 2) failVectorizer none
    "2026-01-01" "12:00:00" ⟨some "Strong Competence", some []⟩).1
    (Or.inl ⟨"vectorize failed", rfl⟩)
